import Mathlib

set_option autoImplicit false

/- Verification of the pynote_ui component state-synchronization core of the
   pynote-notebook-editor repository (packages/pynote_ui: `core.py` with
   `StateManager` and `UIElement`, `elements.py` with the widget variants).

   Embedding conventions:
   * Python values are embedded as `PyVal`; Python floats are modelled as exact
     rationals (only the int/float tag distinction and exact decimal literals
     matter to the verified properties).
   * Python dicts are ordered association lists (`List (String × _)`) with
     insert-or-replace assignment, preserving the position of an existing key,
     exactly like CPython dicts.
   * Python exceptions are `Except PyExn`; a function that cannot propagate an
     exception (because the source catches everything) returns a plain value.
   * `str(uuid.uuid4())` is modelled as consuming the next element of an
     injective id supply.
   * Object identity for `self.props` dicts (which are shared by reference
     between a container's serialized children and the child itself) is
     modelled with an explicit heap keyed by the owning element's id. -/

/-- Embedded Python values.  `propsRef uid` is a reference to the live
`self.props` dict of the element with id `uid` (see the serialization heap
below); all other constructors are ordinary JSON-like values. -/
inductive PyVal where
  | none
  | bool (b : Bool)
  | int (n : Int)
  | float (q : Rat)
  | str (s : String)
  | list (xs : List PyVal)
  | dict (entries : List (String × PyVal))
  | propsRef (uid : String)

/-- A Python dict with string keys: ordered association list. -/
abbrev PyDict (α : Type) : Type := List (String × α)

/-- Keyword-argument / property maps (`self.props`, interaction `data`). -/
abbrev Props : Type := PyDict PyVal

/-- Python dict lookup `m.get(k)` / `m[k]`. -/
def dictGet {α : Type} : PyDict α → String → Option α
  | [], _ => Option.none
  | (k, v) :: rest, key => if k = key then some v else dictGet rest key

/-- Python dict assignment `m[k] = v`: replaces in place if the key exists
(keeping its position), otherwise appends at the end. -/
def dictInsert {α : Type} : PyDict α → String → α → PyDict α
  | [], key, val => [(key, val)]
  | (k, v) :: rest, key, val =>
      if k = key then (key, val) :: rest else (k, v) :: dictInsert rest key val

/-- Python `del m[k]`: removes the entry for `key` (keys are unique in a
dict, so dropping every occurrence coincides with CPython's removal). -/
def dictDel {α : Type} : PyDict α → String → PyDict α
  | [], _ => []
  | (k, v) :: rest, key => if k = key then dictDel rest key else (k, v) :: dictDel rest key

/-- Python `m.update(kwargs)`: assigns every pair of `kwargs` in order. -/
def dictUpdate {α : Type} (m : PyDict α) (kwargs : PyDict α) : PyDict α :=
  kwargs.foldl (fun acc p => dictInsert acc p.1 p.2) m

/-- Python `k in m`. -/
def dictMem {α : Type} (m : PyDict α) (key : String) : Bool :=
  (dictGet m key).isSome

/-- Embedded Python exceptions (the ones the verified code can raise). -/
inductive PyExn where
  | valueError (msg : String)
  | typeError (msg : String)
deriving DecidableEq

/- ----------------------------------------------------------------------
   `core.py`, class `StateManager`: the registry.
   The class-level mutable state (`_instances`, `_instances_by_cell`,
   `_current_cell_id`) is made an explicit record, generic in the type `α` of
   the stored widget instances; the Python code only touches instances through
   `instance.id` (passed here as `idOf`) and `instance.handle_interaction`
   (passed as `handle`).  In-place mutation of a stored instance is modelled
   by rebinding its id to the new instance value.
   ---------------------------------------------------------------------- -/

structure Registry (α : Type) where
  instances : PyDict α
  instances_by_cell : PyDict (List String)
  current_cell_id : Option String

def Registry.empty {α : Type} : Registry α :=
  { instances := [], instances_by_cell := [], current_cell_id := Option.none }

/-- `StateManager.set_current_cell` (the `print` is ignored). -/
def Registry.set_current_cell {α : Type} (R : Registry α) (cell_id : String) : Registry α :=
  { R with current_cell_id := some cell_id }

/-- Body of the loop in `StateManager.clear_cell`:
`if uid in cls._instances: del cls._instances[uid]`. -/
def delStep {α : Type} (m : PyDict α) (uid : String) : PyDict α :=
  if dictMem m uid then dictDel m uid else m

/-- `StateManager.clear_cell`. -/
def Registry.clear_cell {α : Type} (R : Registry α) (cell_id : String) : Registry α :=
  match dictGet R.instances_by_cell cell_id with
  | some uids =>
      { R with
        instances := uids.foldl delStep R.instances
        instances_by_cell := dictDel R.instances_by_cell cell_id }
  | Option.none => R

/-- `StateManager.register`.  The guard `if cls._current_cell_id:` is Python
truthiness: `None` and the empty string are falsy. -/
def Registry.register {α : Type} (idOf : α → String) (R : Registry α) (inst : α) : Registry α :=
  let instances' := dictInsert R.instances (idOf inst) inst
  match R.current_cell_id with
  | some c =>
      if c.isEmpty then { R with instances := instances' }
      else
        let owned := (dictGet R.instances_by_cell c).getD []
        { R with
          instances := instances'
          instances_by_cell := dictInsert R.instances_by_cell c (owned ++ [idOf inst]) }
  | Option.none => { R with instances := instances' }

/-- `StateManager.get`. -/
def Registry.get {α : Type} (R : Registry α) (uid : String) : Option α :=
  dictGet R.instances uid

/-- The ids owned by a cell (`cls._instances_by_cell[cell_id]`, or `[]`). -/
def Registry.ownedIds {α : Type} (R : Registry α) (cell_id : String) : List String :=
  (dictGet R.instances_by_cell cell_id).getD []

/-- `StateManager.update` (the dispatch entry point `handle_interaction(uid,
data)` forwards here): looks the id up, invokes the instance's
`handle_interaction` if found and returns `True`, otherwise logs a warning and
returns `False`.  An exception raised by the handler propagates. -/
def Registry.update {α : Type} (handle : α → Props → Except PyExn α)
    (R : Registry α) (uid : String) (data : Props) : Except PyExn (Registry α × Bool) :=
  match R.get uid with
  | some inst =>
      match handle inst data with
      | .ok inst' => .ok ({ R with instances := dictInsert R.instances uid inst' }, true)
      | .error e => .error e
  | Option.none => .ok (R, false)

/- ----------------------------------------------------------------------
   Instances for the registry lifecycle claims: the part of `UIElement`
   visible to `StateManager` (its id, variant tag and property map).
   ---------------------------------------------------------------------- -/

structure Inst where
  id : String
  kind : String
  props : Props

/-- The id-assignment and self-registration part of `UIElement.__init__`:
`self.id = str(uuid.uuid4())`, then `StateManager.register(self)`.  The uuid
draw is modelled as taking element `counter` of the id supply `seq`. -/
def UIElement.initInst (seq : Nat → String) (counter : Nat) (kind : String) (props : Props)
    (R : Registry Inst) : Inst × Nat × Registry Inst :=
  let inst : Inst := { id := seq counter, kind := kind, props := props }
  (inst, counter + 1, R.register Inst.id inst)

/-- Constructing `n` widgets in a row, threading the uuid supply. -/
def constructMany (seq : Nat → String) (kind : String) (props : Props) :
    Nat → Nat → Registry Inst → List Inst × Nat × Registry Inst
  | 0, counter, R => ([], counter, R)
  | n + 1, counter, R =>
      let step := UIElement.initInst seq counter kind props R
      let rest := constructMany seq kind props n step.2.1 step.2.2
      (step.1 :: rest.1, rest.2)

/-- Widget A of the C1 scenario (id `a1`, constructed while cell `c1` is active). -/
def instA : Inst := { id := "a1", kind := "Slider", props := [] }

/-- Widget B of the C1 scenario (id `b1`, constructed while cell `c2` is active). -/
def instB : Inst := { id := "b1", kind := "Slider", props := [] }

/-- The registry state of the spec scenario, before `clear_cell("c1")`:
`set_current_cell("c1")`; register A; `set_current_cell("c2")`; register B. -/
def scenarioC1pre : Registry Inst :=
  (((Registry.empty.set_current_cell "c1").register Inst.id instA).set_current_cell
      "c2").register Inst.id instB

/-- The scenario state after `clear_cell("c1")`. -/
def scenarioC1post : Registry Inst :=
  scenarioC1pre.clear_cell "c1"

/- ----------------------------------------------------------------------
   `core.py`, `StateManager._comm_target` / `StateManager.send_update` and
   the property-push path `UIElement.send_update`.
   ---------------------------------------------------------------------- -/

/-- The outbound channel callback `cls._comm_target`; invoking it may raise
(modelled as `Except.error` with the exception message). -/
abbrev CommTarget : Type := String → Props → Except String Unit

/-- `StateManager.register_comm_target`: installs the callback, replacing any
previous one. -/
def StateManager.register_comm_target (cb : CommTarget) : Option CommTarget :=
  some cb

/-- The observable outcome of one `StateManager.send_update` call: the
invocations of the comm target it performed and the exception it caught
(and logged), if any. -/
structure SendResult where
  calls : List (String × Props)
  caught : Option String

/-- `StateManager.send_update`: if a comm target is installed, invoke it once
with `(uid, data)`, catching (and logging) any exception it raises; if none is
installed, log a warning and do nothing.  The return type is a plain value:
this function can never propagate an exception to its caller. -/
def StateManager.send_update (comm_target : Option CommTarget) (uid : String) (data : Props) :
    SendResult :=
  match comm_target with
  | some cb =>
      match cb uid data with
      | .ok _ => { calls := [(uid, data)], caught := Option.none }
      | .error e => { calls := [(uid, data)], caught := some e }
  | Option.none => { calls := [], caught := Option.none }

/-- The part of a `UIElement` the push path touches: its id and props. -/
structure BElem where
  id : String
  props : Props

/-- `UIElement.send_update(**kwargs)`: `self.props.update(kwargs)`, then
`StateManager.send_update(self.id, kwargs)`. -/
def BElem.send_update (comm_target : Option CommTarget) (el : BElem) (kwargs : Props) :
    BElem × SendResult :=
  ({ el with props := dictUpdate el.props kwargs },
   StateManager.send_update comm_target el.id kwargs)

/-- The spec's `setProperty(name, value)`: what every typed setter does — a
single-property `UIElement.send_update` push. -/
def BElem.setProperty (comm_target : Option CommTarget) (el : BElem) (name : String)
    (v : PyVal) : BElem × SendResult :=
  BElem.send_update comm_target el [(name, v)]

/-- The slider state the `Slider.value` setter touches (`self._value` plus the
inherited id and props). -/
structure BSlider where
  id : String
  _value : PyVal
  props : Props

/-- The `Slider.value` property setter:
`self._value = new_value; self.send_update(value=new_value)`. -/
def BSlider.setValue (comm_target : Option CommTarget) (s : BSlider) (new_value : PyVal) :
    BSlider × SendResult :=
  let s1 : BSlider := { s with _value := new_value }
  let pushed := BElem.send_update comm_target { id := s1.id, props := s1.props }
    [("value", new_value)]
  ({ s1 with props := pushed.1.props }, pushed.2)

/- ----------------------------------------------------------------------
   Python coercion builtins used by `Slider.handle_interaction`.
   ---------------------------------------------------------------------- -/

/-- Python truthiness, `bool(x)`. -/
def pyTruthy : PyVal → Bool
  | .none => false
  | .bool b => b
  | .int n => decide (n ≠ 0)
  | .float q => decide (q ≠ 0)
  | .str s => !s.isEmpty
  | .list xs => !xs.isEmpty
  | .dict es => !es.isEmpty
  | .propsRef _ => true

/-- `isinstance(x, float)` (Python bools are ints, not floats). -/
def PyVal.isFloat : PyVal → Bool
  | .float _ => true
  | _ => false

/-- ASCII whitespace (what `int()` / `float()` strip around a literal). -/
def isPySpace (c : Char) : Bool :=
  c == ' ' || c == '\t' || c == '\n' || c == '\r'

/-- Strip whitespace from both ends of a character list. -/
def stripSpaces (cs : List Char) : List Char :=
  ((cs.dropWhile isPySpace).reverse.dropWhile isPySpace).reverse

/-- The numeric value of a non-empty all-digit character list (`none`
otherwise). -/
def digitsVal (cs : List Char) : Option Nat :=
  if cs.isEmpty then Option.none
  else
    cs.foldl
      (fun acc c => acc.bind (fun a => if c.isDigit then some (a * 10 + (c.toNat - 48)) else Option.none))
      (some 0)

/-- Split a character list at the first `'.'`, if any. -/
def splitDot : List Char → List Char × Option (List Char)
  | [] => ([], Option.none)
  | c :: cs =>
      if c = '.' then ([], some cs)
      else
        let r := splitDot cs
        (c :: r.1, r.2)

/-- Strip an optional leading sign; `true` means negative. -/
def stripSign : List Char → Bool × List Char
  | '-' :: rest => (true, rest)
  | '+' :: rest => (false, rest)
  | cs => (false, cs)

/-- Python `int(s)` on a string: optional surrounding whitespace, optional
sign, then decimal digits only. -/
def pyParseInt (s : String) : Option Int :=
  let t := stripSign (stripSpaces s.data)
  (digitsVal t.2).map (fun n => if t.1 then -(n : Int) else (n : Int))

/-- Python `float(s)` on a string: optional whitespace and sign, then
`digits`, `digits.digits`, `digits.` or `.digits` (exponents, `inf` and `nan`
are outside the verified fragment).  The result is the exact rational value
of the decimal literal. -/
def pyParseFloat (s : String) : Option Rat :=
  let t := stripSign (stripSpaces s.data)
  let sgn : Rat → Rat := fun q => if t.1 then -q else q
  match splitDot t.2 with
  | (ipart, Option.none) => (digitsVal ipart).map (fun n => sgn (n : Rat))
  | (ipart, some fpart) =>
      if ipart.isEmpty && fpart.isEmpty then Option.none
      else if (ipart.isEmpty || ipart.all Char.isDigit)
          && (fpart.isEmpty || fpart.all Char.isDigit) then
        some (sgn (((digitsVal ipart).getD 0 : Rat)
          + ((digitsVal fpart).getD 0 : Rat) / ((10 : Rat) ^ fpart.length)))
      else Option.none

/-- Python `str(x)` for scalar values (the only case the verified code can
reach is `str` applied to a string, when a slider's current value is itself a
string; container rendering is irrelevant to every claim and elided). -/
def pyStr : PyVal → String
  | .none => "None"
  | .bool b => if b then "True" else "False"
  | .int n => toString n
  | .float q => toString q
  | .str s => s
  | .list _ => "<list repr elided>"
  | .dict _ => "<dict repr elided>"
  | .propsRef _ => "<dict repr elided>"

/-- Python `int(x)`.  Rational "floats" truncate toward zero like CPython. -/
def pyIntOf : PyVal → Except PyExn Int
  | .int n => .ok n
  | .bool b => .ok (if b then 1 else 0)
  | .float q => .ok (if 0 ≤ q then q.floor else q.ceil)
  | .str s =>
      match pyParseInt s with
      | some n => .ok n
      | Option.none => .error (.valueError ("invalid literal for int() with base 10: " ++ s))
  | _ => .error (.typeError "int() argument must be a string or a number")

/-- Python `float(x)`. -/
def pyFloatOf : PyVal → Except PyExn Rat
  | .float q => .ok q
  | .int n => .ok (n : Rat)
  | .bool b => .ok (if b then 1 else 0)
  | .str s =>
      match pyParseFloat s with
      | some q => .ok q
      | Option.none => .error (.valueError ("could not convert string to float: " ++ s))
  | _ => .error (.typeError "float() argument must be a string or a number")

/-- Python `type(cur)(x)`: construct a value of the runtime type of `cur` from
`x`.  A slider whose current value is `None` raises (as `NoneType(x)` does);
container-typed current values are outside the verified fragment and mapped to
the same `TypeError` sentinel. -/
def coerceToTypeOf (cur x : PyVal) : Except PyExn PyVal :=
  match cur with
  | .int _ => (pyIntOf x).map PyVal.int
  | .float _ => (pyFloatOf x).map PyVal.float
  | .bool _ => .ok (.bool (pyTruthy x))
  | .str _ => .ok (.str (pyStr x))
  | .none => .error (.typeError "NoneType takes no arguments")
  | _ => .error (.typeError "unsupported constructor call")

/- ----------------------------------------------------------------------
   `elements.py`, class `Slider`: typed interaction absorption.
   ---------------------------------------------------------------------- -/

/-- Invocation of a user `on_update` callback (the callback itself is opaque;
only the fact and argument of its invocation are observed). -/
inductive Event where
  | userCallback (tag : String) (data : Props)

/-- `UIElement.handle_interaction`: invoke `self._on_update` if set. -/
def baseHandleEvents (onUpdateTag : Option String) (data : Props) : List Event :=
  match onUpdateTag with
  | some tag => [Event.userCallback tag data]
  | Option.none => []

/-- A `Slider` instance: `self._value`, `self._size`, `self.min`, `self.max`,
`self.step`, `self.label`, plus the inherited id, props and `_on_update`
(the latter as an opaque tag). -/
structure CSlider where
  id : String
  _value : PyVal
  _size : PyVal
  min : PyVal
  max : PyVal
  step : PyVal
  label : PyVal
  props : Props
  onUpdateTag : Option String

/-- `Slider.__init__` (id supplied by the uuid oracle; kwargs stored in order,
with the source's defaults for the styling arguments). -/
def Slider.init (uid : String) (value min max step label size : PyVal) : CSlider :=
  { id := uid, _value := value, _size := size, min := min, max := max, step := step,
    label := label,
    props := [("value", value), ("min", min), ("max", max), ("step", step),
      ("label", label), ("size", size), ("width", .none), ("height", .none),
      ("grow", .none), ("shrink", .none), ("force_dimensions", .bool false),
      ("border", .bool true), ("background", .bool true), ("color", .none)],
    onUpdateTag := Option.none }

/-- `Slider()` with every argument left at its default. -/
def Slider.initDefault (uid : String) : CSlider :=
  Slider.init uid (.int 0) (.int 0) (.int 100) (.int 1) (.str "Slider") .none

/-- `Slider.handle_interaction`: if `"value" in data`, coerce
`data["value"]` with `float` when `self.step` is a float and with
`type(self._value)` otherwise, mirror the result into `self.props["value"]`,
then run the base handler.  A coercion failure propagates. -/
def CSlider.handle_interaction (s : CSlider) (data : Props) :
    Except PyExn (CSlider × List Event) :=
  match dictGet data "value" with
  | some dv =>
      match (if s.step.isFloat then (pyFloatOf dv).map PyVal.float
             else coerceToTypeOf s._value dv) with
      | .ok newv =>
          .ok ({ s with _value := newv, props := dictInsert s.props "value" newv },
               baseHandleEvents s.onUpdateTag data)
      | .error e => .error e
  | Option.none => .ok (s, baseHandleEvents s.onUpdateTag data)

/-- `Slider.handle_interaction` as `StateManager.update` invokes it (the user
callback events are not observed by the registry). -/
def sliderHandle (s : CSlider) (data : Props) : Except PyExn CSlider :=
  (s.handle_interaction data).map Prod.fst

/- ----------------------------------------------------------------------
   `core.py` `UIElement.to_json` and `elements.py` `Group.__init__`:
   serialization.  Each element's `self.props` dict is a mutable object
   shared by reference (a container's construction-time child serialization
   holds the child's live props dict); the heap maps an element's id to its
   current props dict.
   ---------------------------------------------------------------------- -/

/-- The heap of live `self.props` dicts, keyed by owning element id. -/
abbrev Heap : Type := PyDict Props

/-- The current props dict of element `uid`. -/
def heapProps (h : Heap) (uid : String) : Props :=
  (dictGet h uid).getD []

/-- The immutable identity of an element: its id and its class name
(`self.__class__.__name__`). -/
structure DElem where
  id : String
  cls : String

/-- `UIElement.to_json`: `{"id": self.id, "type": class name, "props":
self.props}` — the `"props"` entry is the live dict, held by reference. -/
def DElem.to_json (e : DElem) : PyVal :=
  .dict [("id", .str e.id), ("type", .str e.cls), ("props", .propsRef e.id)]

/-- The `UIElement.__init__` effect visible to serialization: allocate the
fresh props dict (built from the constructor kwargs) in the heap. -/
def DElem.alloc (h : Heap) (uid cls : String) (kwargs : Props) : DElem × Heap :=
  ({ id := uid, cls := cls }, dictInsert h uid kwargs)

/-- The kwargs `Group.__init__` passes to `UIElement.__init__` with the
source's defaults: the children are serialized once, at construction, by
calling `c.to_json()` on each. -/
def Group.initProps (children : List DElem) : Props :=
  [("children", .list (children.map DElem.to_json)), ("layout", .str "col"),
   ("label", .none), ("width", .str "full"), ("height", .none),
   ("align", .str "center"), ("grow", .none), ("shrink", .none),
   ("border", .bool false), ("background", .bool true), ("padding", .none),
   ("gap", .none), ("overflow", .none), ("force_dimensions", .bool false)]

/-- `Group.__init__` with default styling arguments. -/
def Group.construct (h : Heap) (uid : String) (children : List DElem) : DElem × Heap :=
  DElem.alloc h uid "Group" (Group.initProps children)

/-- The props-mutation half of `UIElement.send_update`
(`self.props.update(kwargs)`); the channel half is `StateManager.send_update`
above. -/
def DElem.update_props (h : Heap) (e : DElem) (kwargs : Props) : Heap :=
  dictInsert h e.id (dictUpdate (heapProps h e.id) kwargs)

/-- Resolve props references against the current heap, to reference/nesting
depth `fuel`: the value a JSON encoder visiting the structure at this moment
would observe. -/
def render (h : Heap) : Nat → PyVal → PyVal
  | 0, v => v
  | fuel + 1, .list xs => .list (xs.map (render h fuel))
  | fuel + 1, .dict es => .dict (es.map (fun p => (p.1, render h fuel p.2)))
  | fuel + 1, .propsRef uid => .dict ((heapProps h uid).map (fun p => (p.1, render h fuel p.2)))
  | _ + 1, v => v

/- ----------------------------------------------------------------------
   `elements.py`, `Form` (with `Input`, `Textarea`, `Button` children):
   deferred submission and the aggregate `Form.value` view.
   ---------------------------------------------------------------------- -/

/-- An `Input` instance: `self._value` plus id and props (`self._disabled`
and `self._size` never matter to the verified properties and are elided). -/
structure EInput where
  id : String
  _value : PyVal
  props : Props

/-- `Input.__init__` with the source's defaults for the styling arguments. -/
def Input.init (uid : String) (value placeholder : PyVal) : EInput :=
  { id := uid, _value := value,
    props := [("value", value), ("placeholder", placeholder),
      ("input_type", .str "text"), ("color", .none), ("size", .none),
      ("disabled", .bool false), ("width", .none), ("height", .none),
      ("grow", .none), ("shrink", .none), ("force_dimensions", .bool false),
      ("border", .bool true), ("background", .bool true)] }

/-- A `Textarea` instance (same shape as `Input`). -/
structure ETextarea where
  id : String
  _value : PyVal
  props : Props

/-- `Textarea.__init__` with the source's defaults. -/
def Textarea.init (uid : String) (value placeholder : PyVal) : ETextarea :=
  { id := uid, _value := value,
    props := [("value", value), ("placeholder", placeholder), ("rows", .int 4),
      ("color", .none), ("size", .none), ("disabled", .bool false),
      ("width", .none), ("height", .none), ("grow", .none), ("shrink", .none),
      ("force_dimensions", .bool false), ("border", .bool true),
      ("background", .bool true)] }

/-- A `Button` instance: `self._label` plus id and props. -/
structure EButton where
  id : String
  _label : PyVal
  props : Props

/-- `Button.__init__` with the source's defaults. -/
def Button.init (uid : String) (label : PyVal) : EButton :=
  { id := uid, _label := label,
    props := [("label", label), ("color", .none), ("style", .none),
      ("size", .none), ("disabled", .bool false), ("loading", .bool false),
      ("width", .none), ("height", .none), ("grow", .none), ("shrink", .none),
      ("force_dimensions", .bool false), ("border", .bool true),
      ("background", .bool true)] }

/-- A form child (the variants the verified scenarios use; the remaining
variants follow the identical pattern). -/
inductive EChild where
  | input (s : EInput)
  | textarea (s : ETextarea)
  | button (b : EButton)

/-- `child.__class__.__name__`. -/
def EChild.clsName : EChild → String
  | .input _ => "Input"
  | .textarea _ => "Textarea"
  | .button _ => "Button"

/-- `hasattr(child, "value")`: `Input` and `Textarea` define a `value`
property; `Button` does not. -/
def EChild.hasValueAttr : EChild → Bool
  | .input _ => true
  | .textarea _ => true
  | .button _ => false

/-- `child.value` where defined (the `_value` backing field). -/
def EChild.valueAttr : EChild → PyVal
  | .input s => s._value
  | .textarea s => s._value
  | .button _ => .none

/-- `hasattr(child, "placeholder")`: no variant ever binds a `placeholder`
instance attribute — the constructors store it in `self.props` only — so this
is `false` for every class. -/
def EChild.hasPlaceholderAttr : EChild → Bool
  | .input _ => false
  | .textarea _ => false
  | .button _ => false

/-- `getattr(child, "placeholder", child.__class__.__name__.lower())`: the
default branch is always taken (see `EChild.hasPlaceholderAttr`), and the
default is the lowercase class name — `"Input".lower()`, `"Textarea".lower()`,
`"Button".lower()` written out. -/
def EChild.formKey : EChild → String
  | .input _ => "input"
  | .textarea _ => "textarea"
  | .button _ => "button"

/-- `Form.value`: fold over `self.children` in order; every child with a
`value` attribute contributes `result[key] = child.value`. -/
def Form.value (children : List EChild) : Props :=
  children.foldl
    (fun result c =>
      if c.hasValueAttr then dictInsert result c.formKey c.valueAttr else result)
    []

/-- `Input.handle_interaction`. -/
def EInput.handle_interaction (s : EInput) (data : Props) : EInput :=
  match dictGet data "value" with
  | some v => { s with _value := v, props := dictInsert s.props "value" v }
  | Option.none => s

/-- `Textarea.handle_interaction`. -/
def ETextarea.handle_interaction (s : ETextarea) (data : Props) : ETextarea :=
  match dictGet data "value" with
  | some v => { s with _value := v, props := dictInsert s.props "value" v }
  | Option.none => s

/-- `Button.handle_interaction`: no state change (`clicked` only reaches the
user callback). -/
def EButton.handle_interaction (b : EButton) (_data : Props) : EButton :=
  b

/-- Dispatch of an interaction to a form child's class handler. -/
def EChild.handle_interaction : EChild → Props → EChild
  | .input s, data => .input (s.handle_interaction data)
  | .textarea s, data => .textarea (s.handle_interaction data)
  | .button b, data => .button (b.handle_interaction data)

/-- Deliver one frontend edit to the child at index `i` through the normal
update path (these handlers cannot raise and perform no channel push). -/
def applyEdit : List EChild → Nat → Props → List EChild
  | [], _, _ => []
  | c :: cs, 0, data => c.handle_interaction data :: cs
  | c :: cs, Nat.succ n, data => c :: applyEdit cs n data

/-- Modelled from the spec: the defer-until-submit behaviour of `Form` lives
in the frontend, which is absent from `src/` — descendant input edits are
buffered on the frontend and nothing reaches the host before the submit
signal; the submit signal delivers every buffered edit through the normal
update path (`deliver-interaction` → `handle_interaction`).  The second
component is the list of host-side channel pushes performed, which is empty
in both phases because no host code runs before submit and the input
handlers never call `send_update`. -/
def Form.session (children : List EChild) (edits : List (Nat × Props)) (submitted : Bool) :
    List EChild × List (String × Props) :=
  if submitted then
    (edits.foldl (fun cs e => applyEdit cs e.1 e.2) children, [])
  else
    (children, [])

/-- The value of the last child of `cs` that has a `value` attribute and form
key `k` (the candidate that survives the `Form.value` fold). -/
def lastValueForKey (cs : List EChild) (k : String) : Option PyVal :=
  cs.foldl
    (fun acc c => if c.hasValueAttr && c.formKey == k then some c.valueAttr else acc)
    Option.none

/- ----------------------------------------------------------------------
   Concrete fixtures used by witnesses and counterexamples.
   ---------------------------------------------------------------------- -/

/-- A concrete injective id supply (distinct uuid draws). -/
def wseq (n : Nat) : String :=
  String.mk (List.replicate n 'a')

/-- The C7 scenario children: two `Input`s and a submit `Button` in a form. -/
def formKidsC7 : List EChild :=
  [EChild.input (Input.init "i1" (.str "") (.str "")),
   EChild.input (Input.init "i2" (.str "") (.str "")),
   EChild.button (Button.init "b1" (.str "Submit"))]

/-- The frontend edits buffered before submit in the C7 scenario. -/
def formEditsC7 : List (Nat × Props) :=
  [(0, [("value", PyVal.str "x")]), (1, [("value", PyVal.str "y")])]

/-- A child element for the C6 serialization scenario. -/
def childC6 : DElem := { id := "ch1", cls := "Text" }

/-- A group constructed over `childC6` (whose heap already holds the child's
props). -/
def groupC6 : DElem × Heap :=
  Group.construct [("ch1", [("content", PyVal.str "hi")])] "g1" [childC6]

/-- The C6 scenario heap after mutating the child's `content` property
(post-construction of the group). -/
def hC6 : Heap :=
  DElem.update_props groupC6.2 childC6 [("content", PyVal.str "new")]

/- ----------------------------------------------------------------------
   Association-list (Python dict) lemmas.
   ---------------------------------------------------------------------- -/

theorem dictGet_insert_self {α : Type} (m : PyDict α) (k : String) (v : α) :
    dictGet (dictInsert m k v) k = some v := by
  induction m with
  | nil => simp [dictInsert, dictGet]
  | cons p rest ih =>
      obtain ⟨k', v'⟩ := p
      by_cases h : k' = k
      · simp [dictInsert, h, dictGet]
      · simp [dictInsert, h, dictGet, ih]

theorem dictGet_insert_ne {α : Type} (m : PyDict α) (k key : String) (v : α)
    (h : k ≠ key) : dictGet (dictInsert m k v) key = dictGet m key := by
  induction m with
  | nil => simp [dictInsert, dictGet, h]
  | cons p rest ih =>
      obtain ⟨k', v'⟩ := p
      by_cases hk : k' = k
      · subst hk
        simp [dictInsert, dictGet, h]
      · by_cases hkey : k' = key <;>
          simp [dictInsert, dictGet, hk, hkey, Ne.symm h, ih]

theorem dictGet_del_self {α : Type} (m : PyDict α) (k : String) :
    dictGet (dictDel m k) k = Option.none := by
  induction m with
  | nil => simp [dictDel, dictGet]
  | cons p rest ih =>
      obtain ⟨k', v'⟩ := p
      by_cases h : k' = k
      · simpa [dictDel, h] using ih
      · simpa [dictDel, dictGet, h] using ih

theorem dictGet_del_ne {α : Type} (m : PyDict α) (k key : String) (h : k ≠ key) :
    dictGet (dictDel m k) key = dictGet m key := by
  induction m with
  | nil => simp [dictDel, dictGet]
  | cons p rest ih =>
      obtain ⟨k', v'⟩ := p
      by_cases hk : k' = k
      · subst hk
        simp [dictDel, dictGet, h, ih]
      · by_cases hkey : k' = key
        · subst hkey
          simp [dictDel, dictGet, hk, ih]
        · simp [dictDel, dictGet, hk, hkey, ih]

theorem dictGet_delStep_self {α : Type} (m : PyDict α) (u : String) :
    dictGet (delStep m u) u = Option.none := by
  unfold delStep
  by_cases h : dictMem m u
  · simp [h, dictGet_del_self]
  · have hnone : dictGet m u = Option.none := by
      rcases hg : dictGet m u with _ | x
      · rfl
      · exact absurd (by simp [dictMem, hg]) h
    simp [h, hnone]

theorem dictGet_delStep_ne {α : Type} (m : PyDict α) (u key : String) (h : u ≠ key) :
    dictGet (delStep m u) key = dictGet m key := by
  unfold delStep
  by_cases hm : dictMem m u <;> simp [hm, dictGet_del_ne _ _ _ h]

theorem foldl_delStep_none {α : Type} (uids : List String) (m : PyDict α) (key : String)
    (h : dictGet m key = Option.none) :
    dictGet (uids.foldl delStep m) key = Option.none := by
  induction uids generalizing m with
  | nil => simpa using h
  | cons u rest ih =>
      refine ih (delStep m u) ?_
      by_cases hu : u = key
      · subst hu
        exact dictGet_delStep_self m u
      · rw [dictGet_delStep_ne m u key hu]
        exact h

theorem foldl_delStep_mem {α : Type} (uids : List String) (m : PyDict α) (key : String)
    (h : key ∈ uids) :
    dictGet (uids.foldl delStep m) key = Option.none := by
  induction uids generalizing m with
  | nil => cases h
  | cons u rest ih =>
      rcases List.mem_cons.mp h with h1 | h2
      · subst h1
        by_cases hr : key ∈ rest
        · exact ih (delStep m key) hr
        · exact foldl_delStep_none rest (delStep m key) key (dictGet_delStep_self m key)
      · exact ih (delStep m u) h2

theorem foldl_delStep_not_mem {α : Type} (uids : List String) (m : PyDict α) (key : String)
    (h : key ∉ uids) :
    dictGet (uids.foldl delStep m) key = dictGet m key := by
  induction uids generalizing m with
  | nil => rfl
  | cons u rest ih =>
      have hu : u ≠ key := fun hu => h (by simp [hu])
      have hr : key ∉ rest := fun hr => h (List.mem_cons_of_mem _ hr)
      rw [List.foldl_cons, ih (delStep m u) hr, dictGet_delStep_ne m u key hu]

/- ----------------------------------------------------------------------
   Registry lifecycle lemmas.
   ---------------------------------------------------------------------- -/

theorem register_get_self {α : Type} (idOf : α → String) (R : Registry α) (inst : α) :
    (R.register idOf inst).get (idOf inst) = some inst := by
  unfold Registry.register Registry.get
  cases R.current_cell_id with
  | none => simpa using dictGet_insert_self R.instances (idOf inst) inst
  | some c =>
      by_cases hc : c.isEmpty <;>
        simpa [hc] using dictGet_insert_self R.instances (idOf inst) inst

theorem clear_cell_get_of_mem {α : Type} (R : Registry α) (c uid : String)
    (h : uid ∈ R.ownedIds c) : (R.clear_cell c).get uid = Option.none := by
  unfold Registry.clear_cell
  unfold Registry.ownedIds at h
  cases hm : dictGet R.instances_by_cell c with
  | none => simp [hm] at h
  | some uids =>
      rw [hm] at h
      simp only [Option.getD_some] at h
      simpa [Registry.get] using foldl_delStep_mem uids R.instances uid h

theorem clear_cell_get_of_not_mem {α : Type} (R : Registry α) (c uid : String)
    (h : uid ∉ R.ownedIds c) : (R.clear_cell c).get uid = R.get uid := by
  unfold Registry.clear_cell
  unfold Registry.ownedIds at h
  cases hm : dictGet R.instances_by_cell c with
  | none => rfl
  | some uids =>
      rw [hm] at h
      simp only [Option.getD_some] at h
      simpa [Registry.get] using foldl_delStep_not_mem uids R.instances uid h

/- ----------------------------------------------------------------------
   C1, C2, C9: registry lifecycle.
   ---------------------------------------------------------------------- -/

/-- C1: a registered widget instance is returned by `get` under its own id;
after `clear_cell c`, every id owned by cell `c` is not found, and any id not
owned by `c` resolves exactly as before; concretely, in the spec scenario
(`set_current_cell "c1"`, construct A, `set_current_cell "c2"`, construct B,
`clear_cell "c1"`) `get "a1"` reports not-found while `get "b1"` still
resolves to B. -/
theorem claim_C1 :
    (∀ (R : Registry Inst) (inst : Inst),
        (R.register Inst.id inst).get inst.id = some inst)
    ∧ (∀ (R : Registry Inst) (c uid : String),
        uid ∈ R.ownedIds c → (R.clear_cell c).get uid = Option.none)
    ∧ (∀ (R : Registry Inst) (c uid : String),
        uid ∉ R.ownedIds c → (R.clear_cell c).get uid = R.get uid)
    ∧ scenarioC1post.get "a1" = Option.none
    ∧ scenarioC1post.get "b1" = some instB :=
  ⟨fun R inst => register_get_self Inst.id R inst,
   fun R c uid h => clear_cell_get_of_mem R c uid h,
   fun R c uid h => clear_cell_get_of_not_mem R c uid h,
   by rfl, by rfl⟩

/-- Witness for C1: its universally quantified parts applied at the concrete
scenario registry, hypotheses discharged by evaluation. -/
theorem claim_C1_witness :
    (scenarioC1pre.register Inst.id instB).get instB.id = some instB
    ∧ (scenarioC1pre.clear_cell "c1").get "a1" = Option.none
    ∧ (scenarioC1pre.clear_cell "c1").get "b1" = scenarioC1pre.get "b1" :=
  ⟨claim_C1.1 scenarioC1pre instB,
   claim_C1.2.1 scenarioC1pre "c1" "a1" (by decide),
   claim_C1.2.2.1 scenarioC1pre "c1" "b1" (by decide)⟩

/-- C2: `StateManager.update` (the dispatch path) with an unknown id — in
particular any id removed by `clear_cell` — returns `False` and raises no
exception; with a known id whose handler returns normally, it invokes that
instance's handler on the event data and returns `True` (the stored instance
becoming the handled one). -/
theorem claim_C2 :
    (∀ {α : Type} (handle : α → Props → Except PyExn α) (R : Registry α)
        (uid : String) (data : Props),
        R.get uid = Option.none →
        Registry.update handle R uid data = .ok (R, false))
    ∧ (∀ {α : Type} (handle : α → Props → Except PyExn α) (R : Registry α)
        (uid : String) (data : Props) (inst inst' : α),
        R.get uid = some inst → handle inst data = .ok inst' →
        Registry.update handle R uid data
          = .ok ({ R with instances := dictInsert R.instances uid inst' }, true))
    ∧ (∀ {α : Type} (handle : α → Props → Except PyExn α) (R : Registry α)
        (c uid : String) (data : Props),
        uid ∈ R.ownedIds c →
        Registry.update handle (R.clear_cell c) uid data
          = .ok (R.clear_cell c, false)) := by
  refine ⟨?_, ?_, ?_⟩
  · intro α handle R uid data h
    simp [Registry.update, h]
  · intro α handle R uid data inst inst' h1 h2
    simp [Registry.update, h1, h2]
  · intro α handle R c uid data h
    simp [Registry.update, clear_cell_get_of_mem R c uid h]

/-- Witness for C2 at the concrete scenario registry. -/
theorem claim_C2_witness :
    Registry.update (fun i _ => .ok i) scenarioC1post "a1" [] = .ok (scenarioC1post, false)
    ∧ Registry.update (fun i _ => .ok i) scenarioC1pre "b1" []
        = .ok ({ scenarioC1pre with
                   instances := dictInsert scenarioC1pre.instances "b1" instB }, true)
    ∧ Registry.update (fun i _ => .ok i) (scenarioC1pre.clear_cell "c1") "a1" []
        = .ok (scenarioC1pre.clear_cell "c1", false) :=
  ⟨claim_C2.1 (fun i _ => .ok i) scenarioC1post "a1" [] (by rfl),
   claim_C2.2.1 (fun i _ => .ok i) scenarioC1pre "b1" [] instB instB (by rfl) rfl,
   claim_C2.2.2 (fun i _ => .ok i) scenarioC1pre "c1" "a1" [] (by decide)⟩

theorem constructMany_ids (seq : Nat → String) (kind : String) (props : Props) :
    ∀ (n counter : Nat) (R : Registry Inst),
      (constructMany seq kind props n counter R).1.map Inst.id
        = (List.range' counter n).map seq := by
  intro n
  induction n with
  | zero => intro counter R; simp [constructMany]
  | succ n ih =>
      intro counter R
      simp [constructMany, UIElement.initInst, List.range'_succ, ih]

/-- C9: ids are assigned at construction from the uuid supply and are never
reassigned; as long as the uuid draws are distinct (which is what
`uuid.uuid4()` provides, here an injective supply), the ids of all widgets
constructed during the process lifetime are pairwise distinct. -/
theorem claim_C9 (seq : Nat → String) (hinj : Function.Injective seq)
    (kind : String) (props : Props) (n counter : Nat) (R : Registry Inst) :
    ((constructMany seq kind props n counter R).1.map Inst.id).Nodup := by
  rw [constructMany_ids]
  exact List.Nodup.map hinj (List.nodup_range' counter n)

theorem wseq_injective : Function.Injective wseq := by
  intro a b h
  have hlen := congrArg String.length h
  simpa [wseq, String.length] using hlen

/-- Witness for C9: three constructions under a concrete injective supply. -/
theorem claim_C9_witness :
    Function.Injective wseq
    ∧ ((constructMany wseq "Slider" [] 3 0 Registry.empty).1.map Inst.id).Nodup :=
  ⟨wseq_injective, claim_C9 wseq wseq_injective "Slider" [] 3 0 Registry.empty⟩

/- ----------------------------------------------------------------------
   C3, C5: the outbound push path.
   ---------------------------------------------------------------------- -/

/-- C3: with a channel installed, a single `setProperty` invokes the channel
exactly once, with `(id, {name: value})`; with no channel installed, the call
still updates the property map, performs no channel invocation and catches
nothing — and, being a total function, returns normally (no exception). -/
theorem claim_C3 :
    (∀ (cb : CommTarget) (el : BElem) (name : String) (v : PyVal),
        (BElem.setProperty (StateManager.register_comm_target cb) el name v).2.calls
          = [(el.id, [(name, v)])])
    ∧ (∀ (el : BElem) (name : String) (v : PyVal),
        BElem.setProperty Option.none el name v
          = ({ el with props := dictInsert el.props name v },
             { calls := [], caught := Option.none })) := by
  constructor
  · intro cb el name v
    unfold BElem.setProperty BElem.send_update StateManager.send_update
      StateManager.register_comm_target
    rcases h : cb el.id [(name, v)] with u | e <;> simp [h]
  · intro el name v
    rfl

/-- Witness for C3 at a concrete widget, channel and property. -/
theorem claim_C3_witness :
    (BElem.setProperty (StateManager.register_comm_target (fun _ _ => .ok ()))
        { id := "w1", props := [] } "value" (.int 5)).2.calls
      = [("w1", [("value", PyVal.int 5)])]
    ∧ BElem.setProperty Option.none { id := "w1", props := [] } "value" (.int 5)
        = ({ id := "w1", props := [("value", PyVal.int 5)] },
           { calls := [], caught := Option.none }) :=
  ⟨claim_C3.1 (fun _ _ => .ok ()) { id := "w1", props := [] } "value" (.int 5),
   claim_C3.2 { id := "w1", props := [] } "value" (.int 5)⟩

/-- C5: when the installed channel callback raises on the push triggered by a
property setter, the exception is caught at the `StateManager.send_update`
boundary (recorded as the logged `caught` field, not propagated), and the
setter completes normally with the widget state updated. -/
theorem claim_C5 (s : BSlider) (v : PyVal) (cb : CommTarget) (e : String)
    (h : cb s.id [("value", v)] = .error e) :
    BSlider.setValue (some cb) s v
      = ({ s with _value := v, props := dictInsert s.props "value" v },
         { calls := [(s.id, [("value", v)])], caught := some e }) := by
  unfold BSlider.setValue BElem.send_update StateManager.send_update
  simp [h, dictUpdate]

/-- Witness for C5: a channel callback that always raises. -/
theorem claim_C5_witness :
    BSlider.setValue (some (fun _ _ => .error "frontend disconnected"))
        { id := "w1", _value := PyVal.int 0, props := [("value", PyVal.int 0)] } (.int 5)
      = ({ id := "w1", _value := PyVal.int 5, props := [("value", PyVal.int 5)] },
         { calls := [("w1", [("value", PyVal.int 5)])],
           caught := some "frontend disconnected" }) :=
  claim_C5 { id := "w1", _value := PyVal.int 0, props := [("value", PyVal.int 0)] }
    (.int 5) (fun _ _ => .error "frontend disconnected") "frontend disconnected" rfl

/- ----------------------------------------------------------------------
   C4, C8: interaction absorption in `Slider.handle_interaction`.
   ---------------------------------------------------------------------- -/

theorem pyFloatOf_str7 : pyFloatOf (.str "7") = .ok 7 := by rfl

theorem pyIntOf_str7 : pyIntOf (.str "7") = .ok 7 := by rfl

/-- C4 (code bug): the spec demands that malformed interaction data never
raise through the dispatch path, but on a default `Slider()` (integer current
value) `handle_interaction({"value": "abc"})` applies `int("abc")`, which
raises `ValueError`, and the exception propagates through
`StateManager.update`. -/
theorem claim_C4_bug :
    (Slider.initDefault "s1").handle_interaction [("value", PyVal.str "abc")]
      = .error (.valueError "invalid literal for int() with base 10: abc")
    ∧ Registry.update sliderHandle
        (Registry.empty.register CSlider.id (Slider.initDefault "s1")) "s1"
        [("value", PyVal.str "abc")]
      = .error (.valueError "invalid literal for int() with base 10: abc") :=
  ⟨rfl, rfl⟩

/-- C8 counterexample: `Slider(value=0.5, min=0, max=1, step=1)` has an
integer step, yet `handle_interaction({"value": "7"})` stores the float `7.0`
and not the integer `7`: in the non-float-step branch the coercion target is
`type(self._value)` — the type of the current value — not the step type. -/
theorem claim_C8_counterexample :
    ((Slider.init "s3" (.float (1/2)) (.int 0) (.int 1) (.int 1) (.str "Slider")
          .none).handle_interaction [("value", PyVal.str "7")]).map (fun r => r.1._value)
      = .ok (.float 7)
    ∧ PyVal.float 7 ≠ PyVal.int 7 :=
  ⟨rfl, fun h => PyVal.noConfusion h⟩

/-- C8 (amended): with a float step `handle_interaction` coerces the incoming
`"7"` with `float()`, yielding `7.0`; with a non-float step the coercion
target is the type of the current internal value, so with an integer step and
an integer current value `"7"` yields the integer `7`. -/
theorem claim_C8 :
    (∀ (s : CSlider), s.step.isFloat = true →
        (s.handle_interaction [("value", PyVal.str "7")]).map (fun r => r.1._value)
          = .ok (.float 7))
    ∧ (∀ (s : CSlider) (n : Int), s.step.isFloat = false → s._value = .int n →
        (s.handle_interaction [("value", PyVal.str "7")]).map (fun r => r.1._value)
          = .ok (.int 7)) := by
  constructor
  · intro s hs
    simp [CSlider.handle_interaction, dictGet, hs, pyFloatOf_str7, Except.map]
  · intro s n hs hv
    simp [CSlider.handle_interaction, dictGet, hs, hv, coerceToTypeOf, pyIntOf_str7,
      Except.map]

/-- Witness for C8: a float-step slider and the default integer slider. -/
theorem claim_C8_witness :
    ((Slider.init "s2" (.int 0) (.int 0) (.int 100) (.float (1/10)) (.str "Slider")
          .none).handle_interaction [("value", PyVal.str "7")]).map (fun r => r.1._value)
      = .ok (.float 7)
    ∧ ((Slider.initDefault "s1").handle_interaction
          [("value", PyVal.str "7")]).map (fun r => r.1._value)
      = .ok (.int 7) :=
  ⟨claim_C8.1 (Slider.init "s2" (.int 0) (.int 0) (.int 100) (.float (1/10))
      (.str "Slider") .none) rfl,
   claim_C8.2 (Slider.initDefault "s1") 0 rfl rfl⟩

/- ----------------------------------------------------------------------
   C6: serialization.
   ---------------------------------------------------------------------- -/

theorem dictGet_map_snd {α β : Type} (f : α → β) (m : PyDict α) (k : String) :
    dictGet (m.map (fun p => (p.1, f p.2))) k = (dictGet m k).map f := by
  induction m with
  | nil => rfl
  | cons p rest ih =>
      obtain ⟨k', v'⟩ := p
      by_cases h : k' = k <;> simp [dictGet, h, ih]

theorem heapProps_update_self (h : Heap) (e : DElem) (kwargs : Props) :
    heapProps (DElem.update_props h e kwargs) e.id
      = dictUpdate (heapProps h e.id) kwargs := by
  simp [DElem.update_props, heapProps, dictGet_insert_self]

theorem render_to_json (h : Heap) (e : DElem) (fuel : Nat) :
    render h (fuel + 2) e.to_json
      = .dict [("id", .str e.id), ("type", .str e.cls),
          ("props", .dict ((heapProps h e.id).map (fun p => (p.1, render h fuel p.2))))] :=
  rfl

/-- C6: (i) rendering `to_json` of any element against the current heap gives
exactly `{id, type, props}` with `props` the element's CURRENT property map —
the structure reconstructible from the property map; (ii) immediately after
the props-mutation half of `setProperty`, the rendered `props` holds the new
value under the mutated name; (iii) a `Group`'s construction-time `children`
snapshot consists of the children's `to_json` values, whose `props` entries
alias the children's live dicts, so the rendered `children` of the group
equal the children's serializations rendered at the same moment — observably
as if each child's `serialize()` were invoked at serialization time; (iv)
`Group.__init__` establishes exactly that snapshot. -/
theorem claim_C6 :
    (∀ (h : Heap) (e : DElem) (fuel : Nat),
        render h (fuel + 2) e.to_json
          = .dict [("id", .str e.id), ("type", .str e.cls),
              ("props", .dict ((heapProps h e.id).map (fun p => (p.1, render h fuel p.2))))])
    ∧ (∀ (h : Heap) (e : DElem) (name : String) (v : PyVal) (fuel : Nat),
        dictGet ((heapProps (DElem.update_props h e [(name, v)]) e.id).map
            (fun p => (p.1, render (DElem.update_props h e [(name, v)]) fuel p.2))) name
          = some (render (DElem.update_props h e [(name, v)]) fuel v))
    ∧ (∀ (h : Heap) (g : DElem) (cs : List DElem) (fuel : Nat),
        dictGet (heapProps h g.id) "children" = some (.list (cs.map DElem.to_json)) →
        dictGet ((heapProps h g.id).map (fun p => (p.1, render h (fuel + 2) p.2))) "children"
          = some (.list (cs.map (fun c => render h (fuel + 1) c.to_json))))
    ∧ (∀ (h : Heap) (uid : String) (cs : List DElem),
        dictGet (heapProps ((Group.construct h uid cs).2) uid) "children"
          = some (.list (cs.map DElem.to_json))) := by
  refine ⟨render_to_json, ?_, ?_, ?_⟩
  · intro h e name v fuel
    rw [dictGet_map_snd, heapProps_update_self]
    have : dictUpdate (heapProps h e.id) [(name, v)]
        = dictInsert (heapProps h e.id) name v := rfl
    rw [this, dictGet_insert_self]
    rfl
  · intro h g cs fuel hch
    rw [dictGet_map_snd, hch]
    simp [render, List.map_map]
  · intro h uid cs
    simp [Group.construct, DElem.alloc, heapProps, dictGet_insert_self, Group.initProps,
      dictGet]

/-- Witness for C6 (iii): the concrete group scenario after a child mutation;
the group's rendered children equal the child's post-mutation serialization. -/
theorem claim_C6_witness :
    dictGet ((heapProps hC6 "g1").map (fun p => (p.1, render hC6 2 p.2))) "children"
      = some (.list [render hC6 1 childC6.to_json]) :=
  claim_C6.2.2.1 hC6 groupC6.1 [childC6] 0 (by rfl)

/- ----------------------------------------------------------------------
   C7, C10: `Form` submission and the aggregate value view.
   ---------------------------------------------------------------------- -/

theorem formValue_eq_lastValueForKey (cs : List EChild) (k : String) :
    dictGet (Form.value cs) k = lastValueForKey cs k := by
  induction cs using List.reverseRecOn with
  | nil => rfl
  | append_singleton cs c ih =>
      unfold Form.value lastValueForKey at *
      rw [List.foldl_append, List.foldl_append]
      simp only [List.foldl_cons, List.foldl_nil]
      by_cases hv : c.hasValueAttr
      · by_cases hk : c.formKey = k
        · simp [hv, hk, dictGet_insert_self]
        · simp [hv, hk, dictGet_insert_ne _ _ _ _ hk, ih]
      · simp [hv, ih]

/-- C10: `form.value` iterates children in order and keeps exactly those with
a `value` attribute; because no variant binds a `placeholder` instance
attribute, each is keyed by its lowercase class name, so the entry under a
key is the LAST same-class child's value (`lastValueForKey` is the full
characterization); concretely, two `Input` children — even with distinct
placeholders in their props — collapse to one `"input"` entry holding the
second child's value. -/
theorem claim_C10 :
    (∀ (cs : List EChild) (k : String),
        dictGet (Form.value cs) k = lastValueForKey cs k)
    ∧ (∀ c : EChild, c.hasPlaceholderAttr = false)
    ∧ Form.value [EChild.input (Input.init "i1" (.str "x") (.str "Name")),
          EChild.input (Input.init "i2" (.str "y") (.str "Email"))]
        = [("input", PyVal.str "y")] := by
  refine ⟨formValue_eq_lastValueForKey, ?_, ?_⟩
  · intro c
    cases c <;> rfl
  · rfl

/-- Witness for C10 at the concrete two-input form. -/
theorem claim_C10_witness :
    dictGet (Form.value formKidsC7) "input" = lastValueForKey formKidsC7 "input" :=
  claim_C10.1 formKidsC7 "input"

/-- C7 counterexample: after submit, the first input's current value is
`"x"`, but the aggregate `form.value` of the two-input form is the single
entry `[("input", "y")]` — it does NOT reflect all descendants' current
values (the two `Input` children share the key `"input"`). -/
theorem claim_C7_counterexample :
    Form.value (Form.session formKidsC7 formEditsC7 true).1 = [("input", PyVal.str "y")]
    ∧ (Form.session formKidsC7 formEditsC7 true).1.map EChild.valueAttr
        = [PyVal.str "x", PyVal.str "y", PyVal.none]
    ∧ PyVal.str "x" ≠ PyVal.str "y" := by
  refine ⟨rfl, rfl, ?_⟩
  intro hxy
  injection hxy with hxy
  exact absurd hxy (by decide)

/-- C7 (corrected, deferral modelled from the spec): before the submit signal
nothing reaches the host — the children are untouched and no channel push
occurs; the submit signal runs each descendant's normal update path
(`handle_interaction`), still with no channel push, and `form.value`
immediately reflects the current values of the value-exposing descendants
whose class is unique among the children (descendants sharing a class
collapse to the last one — see the counterexample and C10). -/
theorem claim_C7 (s1 : EInput) (s2 : ETextarea) (b : EButton) (v1 v2 : PyVal) :
    Form.session [.input s1, .textarea s2, .button b]
        [(0, [("value", v1)]), (1, [("value", v2)])] false
      = ([.input s1, .textarea s2, .button b], [])
    ∧ (Form.session [.input s1, .textarea s2, .button b]
          [(0, [("value", v1)]), (1, [("value", v2)])] true).2 = []
    ∧ (Form.session [.input s1, .textarea s2, .button b]
          [(0, [("value", v1)]), (1, [("value", v2)])] true).1
        = [.input { s1 with _value := v1, props := dictInsert s1.props "value" v1 },
           .textarea { s2 with _value := v2, props := dictInsert s2.props "value" v2 },
           .button b]
    ∧ Form.value (Form.session [.input s1, .textarea s2, .button b]
          [(0, [("value", v1)]), (1, [("value", v2)])] true).1
        = [("input", v1), ("textarea", v2)] := by
  refine ⟨rfl, rfl, ?_, ?_⟩ <;>
    simp [Form.session, applyEdit, EChild.handle_interaction, EInput.handle_interaction,
      ETextarea.handle_interaction, EButton.handle_interaction, dictGet, Form.value,
      EChild.hasValueAttr, EChild.formKey, EChild.valueAttr, dictInsert]

/-- Witness for C7 at concrete children and submitted values. -/
theorem claim_C7_witness :
    Form.value (Form.session
        [.input (Input.init "i1" (.str "") (.str "")),
         .textarea (Textarea.init "t1" (.str "") (.str "")),
         .button (Button.init "b1" (.str "Submit"))]
        [(0, [("value", PyVal.str "x")]), (1, [("value", PyVal.str "y")])] true).1
      = [("input", PyVal.str "x"), ("textarea", PyVal.str "y")] :=
  (claim_C7 (Input.init "i1" (.str "") (.str "")) (Textarea.init "t1" (.str "") (.str ""))
    (Button.init "b1" (.str "Submit")) (.str "x") (.str "y")).2.2.2
